import Mathlib

/-! Shallow embedding of the RDA5807 FM tuner driver
(src/linux-3.4/drivers/media/radio/radio-rda5807.c).

The I2C bus is modelled by `I2CModel`: the device's 16-bit register file
plus per-register fault injection for reads and writes.  Every driver
operation returns the C function's `int` result, the list of bus
transactions it attempted, and the device state afterwards. -/

namespace RDA5807

/-- One attempted bus transaction issued through `i2c_transfer`:
either the two-message register read or the one-message register write. -/
inductive BusOp where
  | readOp (reg : Nat) : BusOp
  | writeOp (reg : Nat) (val : Nat) : BusOp
deriving DecidableEq, Repr

/-- Model of the I2C-attached chip: register file (16-bit values, kept
reduced mod 2^16 at the access points) and fault injection for the
transport (`some e` makes the access fail with error code `e`, as a
failing `i2c_transfer` would). -/
structure I2CModel where
  regs : Nat → Nat
  readErr : Nat → Option Int
  writeErr : Nat → Option Int

/-- BIT(n) from linux/bitops.h. -/
def BIT (n : Nat) : Nat := 1 <<< n

def RDA5807_REG_CHIPID : Nat := 0x00

def RDA5807_REG_CTRL : Nat := 0x02

def RDA5807_REG_CHAN : Nat := 0x03

def RDA5807_REG_IOCFG : Nat := 0x04

def RDA5807_REG_INTM_THRESH_VOL : Nat := 0x05

def RDA5807_REG_SEEK_RESULT : Nat := 0x0A

def RDA5807_REG_SIGNAL : Nat := 0x0B

def RDA5807_MASK_CTRL_DMUTE : Nat := BIT 14

def RDA5807_MASK_CTRL_ENABLE : Nat := BIT 0

def RDA5807_SHIFT_CHAN_WRCHAN : Nat := 6

def RDA5807_MASK_CHAN_WRCHAN : Nat := 0x3FF <<< RDA5807_SHIFT_CHAN_WRCHAN

def RDA5807_MASK_CHAN_TUNE : Nat := BIT 4

def RDA5807_SHIFT_CHAN_BAND : Nat := 2

def RDA5807_MASK_CHAN_BAND : Nat := 0x3 <<< RDA5807_SHIFT_CHAN_BAND

def RDA5807_SHIFT_CHAN_SPACE : Nat := 0

def RDA5807_MASK_CHAN_SPACE : Nat := 0x3 <<< RDA5807_SHIFT_CHAN_SPACE

def RDA5807_MASK_SEEKRES_COMPLETE : Nat := BIT 14

def RDA5807_MASK_SEEKRES_FAIL : Nat := BIT 13

def RDA5807_MASK_SEEKRES_STEREO : Nat := BIT 10

def RDA5807_MASK_DEEMPHASIS : Nat := BIT 11

def RDA5807_SHIFT_VOLUME_DAC : Nat := 0

def RDA5807_MASK_VOLUME_DAC : Nat := 0xF <<< RDA5807_SHIFT_VOLUME_DAC

def RDA5807_SHIFT_RSSI : Nat := 9

def RDA5807_MASK_RSSI : Nat := 0x7F <<< RDA5807_SHIFT_RSSI

def RDA5807_FREQ_MIN_KHZ : Nat := 76000

def RDA5807_FREQ_MAX_KHZ : Nat := 108000

/-- Linux errno value EIO_CODE (used when fewer bus messages complete than
requested). -/
def EIO_CODE : Int := 5

/-- Linux errno value ENOMEM. -/
def ENOMEM : Int := 12

/-- Linux errno value ENODEV. -/
def ENODEV : Int := 19

/-- Linux errno value ERANGE. -/
def ERANGE : Int := 34

/-- Bitwise complement restricted to 16 bits: in the C source `~mask`
is always combined with a `u16` operand, so only the low 16 bits of the
complement matter. -/
def NOT16 (m : Nat) : Nat := 65535 ^^^ m

/-- rda5807_i2c_read: write the register index, read two bytes big
endian.  On success the `int` result is the 16-bit register value (a
nonnegative int); on an injected transport failure it is that negative
error code.  The trace records the attempted transaction either way. -/
def rda5807_i2c_read (m : I2CModel) (reg : Nat) : Int × List BusOp × I2CModel :=
  match m.readErr reg with
  | some e => (e, [BusOp.readOp reg], m)
  | none => ((m.regs reg % 65536 : Nat), [BusOp.readOp reg], m)

/-- rda5807_i2c_write: one transaction carrying the register index plus
the two value bytes; truncation to 16 bits models the `u16 val`
parameter.  Returns 0 on success, the injected error otherwise. -/
def rda5807_i2c_write (m : I2CModel) (reg : Nat) (val : Nat) : Int × List BusOp × I2CModel :=
  match m.writeErr reg with
  | some e => (e, [BusOp.writeOp reg (val % 65536)], m)
  | none =>
      (0, [BusOp.writeOp reg (val % 65536)],
       { m with regs := fun r => if r = reg then val % 65536 else m.regs r })

/-- rda5807_update_reg: read `reg`; if the read succeeded (`err >= 0`),
merge via `val |= ((u16)err & ~mask)` and write the merged value back;
a read failure is returned without writing.  `mask` and `val` are `u16`
parameters, hence the truncations. -/
def rda5807_update_reg (m : I2CModel) (reg : Nat) (mask : Nat) (val : Nat) :
    Int × List BusOp × I2CModel :=
  let r := rda5807_i2c_read m reg
  if r.1 ≥ 0 then
    let merged := (val % 65536) ||| (r.1.toNat % 65536 &&& NOT16 (mask % 65536))
    let w := rda5807_i2c_write r.2.2 reg merged
    (w.1, r.2.1 ++ w.2.1, w.2.2)
  else
    (r.1, r.2.1, r.2.2)

/-- Value passed by rda5807_set_enable: `enabled ? MASK_CTRL_ENABLE : 0`
with C truthiness on the `int enabled` argument. -/
def rda5807_set_enable_val (enabled : Int) : Nat :=
  if enabled ≠ 0 then RDA5807_MASK_CTRL_ENABLE else 0

/-- rda5807_set_enable: update the ENABLE bit of the CTRL register. -/
def rda5807_set_enable (m : I2CModel) (enabled : Int) : Int × List BusOp × I2CModel :=
  rda5807_update_reg m RDA5807_REG_CTRL RDA5807_MASK_CTRL_ENABLE
    (rda5807_set_enable_val enabled)

/-- Value passed by rda5807_set_mute: `muted ? 0 : MASK_CTRL_DMUTE`
(the DMUTE bit disables mute, so it is set exactly when unmuting). -/
def rda5807_set_mute_val (muted : Int) : Nat :=
  if muted ≠ 0 then 0 else RDA5807_MASK_CTRL_DMUTE

/-- rda5807_set_mute: update the DMUTE bit of the CTRL register. -/
def rda5807_set_mute (m : I2CModel) (muted : Int) : Int × List BusOp × I2CModel :=
  rda5807_update_reg m RDA5807_REG_CTRL RDA5807_MASK_CTRL_DMUTE
    (rda5807_set_mute_val muted)

/-- Channel index computed by rda5807_set_frequency:
`(freq_khz - RDA5807_FREQ_MIN_KHZ + 25) / 50` (integer division). -/
def rda5807_chan_index (freq_khz : Nat) : Nat :=
  (freq_khz - RDA5807_FREQ_MIN_KHZ + 25) / 50

/-- Mask accumulated by rda5807_set_frequency: band, spacing, channel
index and tune-trigger fields of the CHAN register. -/
def rda5807_set_frequency_mask : Nat :=
  RDA5807_MASK_CHAN_BAND ||| RDA5807_MASK_CHAN_SPACE |||
  RDA5807_MASK_CHAN_WRCHAN ||| RDA5807_MASK_CHAN_TUNE

/-- Value accumulated by rda5807_set_frequency: band 2 (widest), spacing
2 (50 kHz), the channel index in WRCHAN, and the TUNE bit set. -/
def rda5807_set_frequency_val (freq_khz : Nat) : Nat :=
  (2 <<< RDA5807_SHIFT_CHAN_BAND) ||| (2 <<< RDA5807_SHIFT_CHAN_SPACE) |||
  (rda5807_chan_index freq_khz <<< RDA5807_SHIFT_CHAN_WRCHAN) ||| RDA5807_MASK_CHAN_TUNE

/-- rda5807_set_frequency: reject frequencies outside
[RDA5807_FREQ_MIN_KHZ, RDA5807_FREQ_MAX_KHZ] with -ERANGE before any
bus I/O, otherwise update the CHAN register. -/
def rda5807_set_frequency (m : I2CModel) (freq_khz : Nat) : Int × List BusOp × I2CModel :=
  if freq_khz < RDA5807_FREQ_MIN_KHZ then (-ERANGE, [], m)
  else if freq_khz > RDA5807_FREQ_MAX_KHZ then (-ERANGE, [], m)
  else rda5807_update_reg m RDA5807_REG_CHAN rda5807_set_frequency_mask
        (rda5807_set_frequency_val freq_khz)

/-- The V4L2_CID_AUDIO_MUTE branch of rda5807_s_ctrl:
`err1 = rda5807_set_enable(radio, !ctrl->val);
err2 = rda5807_set_mute(radio, ctrl->val);
return err1 ? err1 : err2;`. -/
def rda5807_s_ctrl_mute (m : I2CModel) (ctrl_val : Int) : Int × List BusOp × I2CModel :=
  let r1 := rda5807_set_enable m (if ctrl_val = 0 then 1 else 0)
  let r2 := rda5807_set_mute r1.2.2 ctrl_val
  (if r1.1 ≠ 0 then r1.1 else r2.1, r1.2.1 ++ r2.2.1, r2.2.2)

/-- V4L2_TUNER_SUB_MONO from the V4L2 UAPI (external interface). -/
def V4L2_TUNER_SUB_MONO : Nat := 1

/-- V4L2_TUNER_SUB_STEREO from the V4L2 UAPI (external interface). -/
def V4L2_TUNER_SUB_STEREO : Nat := 2

/-- The rxsubchans computation of rda5807_vidioc_g_tuner from the value
read out of the SEEK_RESULT register. -/
def rda5807_g_tuner_rxsubchans (seekres : Nat) : Nat :=
  if seekres &&& (RDA5807_MASK_SEEKRES_COMPLETE ||| RDA5807_MASK_SEEKRES_FAIL) =
      RDA5807_MASK_SEEKRES_COMPLETE then
    if seekres &&& RDA5807_MASK_SEEKRES_STEREO ≠ 0 then V4L2_TUNER_SUB_STEREO
    else V4L2_TUNER_SUB_MONO
  else V4L2_TUNER_SUB_MONO ||| V4L2_TUNER_SUB_STEREO

/-- RSSI extraction of rda5807_vidioc_g_tuner:
`((u16)err & RDA5807_MASK_RSSI) >> RDA5807_SHIFT_RSSI`. -/
def rda5807_rssi (v : Nat) : Nat := (v &&& RDA5807_MASK_RSSI) >>> RDA5807_SHIFT_RSSI

/-- Signal field of rda5807_vidioc_g_tuner: `signal << (16 - 7)`. -/
def rda5807_signal (v : Nat) : Nat := rda5807_rssi v <<< (16 - 7)

/-- rda5807_i2c_probe up to and including the chip-ID gate.  The success
path past the gate (driver-data allocation, V4L2 control and
video-device registration, default-control setup) is external-framework
plumbing with no bus traffic of its own; it is abstracted to the
returned flag, true exactly when probe proceeds to control
registration.  `alloc_fails` injects the kzalloc failure. -/
def rda5807_i2c_probe (m : I2CModel) (alloc_fails : Bool) : Int × List BusOp × Bool :=
  let r := rda5807_i2c_read m RDA5807_REG_CHIPID
  if r.1 < 0 then (r.1, r.2.1, false)
  else if r.1.toNat &&& 0xFF00 ≠ 0x5800 then (-ENODEV, r.2.1, false)
  else if alloc_fails then (-ENOMEM, r.2.1, false)
  else (0, r.2.1, true)

/-- rda5807_resume: `mute_val` is the current value of the mute control
queried from the V4L2 control framework (external collaborator);
`enabled = !mute_val`; re-enable only when unmuted, otherwise return 0
without touching the bus. -/
def rda5807_resume (m : I2CModel) (mute_val : Int) : Int × List BusOp × I2CModel :=
  let enabled : Int := if mute_val = 0 then 1 else 0
  if enabled ≠ 0 then rda5807_set_enable m enabled
  else (0, [], m)

/-- A fault-free device whose registers all read back 0xAAAA. -/
def modelAAAA : I2CModel :=
  { regs := fun _ => 0xAAAA, readErr := fun _ => none, writeErr := fun _ => none }

/-- A fault-free device whose registers all read back 0. -/
def modelZero : I2CModel :=
  { regs := fun _ => 0, readErr := fun _ => none, writeErr := fun _ => none }

/-- A device whose CTRL register read fails with -EIO_CODE. -/
def modelCtrlReadFail : I2CModel :=
  { regs := fun _ => 0, writeErr := fun _ => none,
    readErr := fun r => if r = RDA5807_REG_CTRL then some (-EIO_CODE) else none }

/-- A fault-free device whose chip-ID register reads 0x1234. -/
def modelWrongChip : I2CModel :=
  { regs := fun r => if r = RDA5807_REG_CHIPID then 0x1234 else 0,
    readErr := fun _ => none, writeErr := fun _ => none }

lemma testBit_not16 (mask i : Nat) :
    (NOT16 mask).testBit i = ((decide (i < 16)).xor (mask.testBit i)) := by
  have h : (65535 : Nat) = 2 ^ 16 - 1 := by norm_num
  rw [NOT16, h, Nat.testBit_xor, Nat.testBit_two_pow_sub_one]

lemma and_mask_absorb {val mask : Nat} (hv : val < 65536)
    (h : val &&& NOT16 mask = 0) : val &&& mask = val := by
  apply Nat.eq_of_testBit_eq
  intro i
  have hb : (val &&& NOT16 mask).testBit i = Nat.testBit 0 i := by rw [h]
  rw [Nat.testBit_and, testBit_not16, Nat.zero_testBit] at hb
  rw [Nat.testBit_and]
  by_cases h16 : i < 16
  · rw [decide_eq_true h16, Bool.true_xor] at hb
    cases hval : val.testBit i <;> cases hmask : mask.testBit i <;> simp_all
  · have h2 : val < 2 ^ i := by
      have he : (65536 : Nat) = 2 ^ 16 := by norm_num
      exact lt_of_lt_of_le (he ▸ hv) (Nat.pow_le_pow_right (by norm_num) (by omega))
    simp [Nat.testBit_lt_two_pow h2]

lemma merge_outside_mask (val mask cur : Nat) (h : val &&& NOT16 mask = 0) :
    (val ||| (cur &&& NOT16 mask)) &&& NOT16 mask = cur &&& NOT16 mask := by
  rw [Nat.and_distrib_right, h, Nat.zero_or, Nat.and_assoc, Nat.and_self]

lemma merge_eq_spec_merge {val mask : Nat} (cur : Nat) (hv : val < 65536)
    (h : val &&& NOT16 mask = 0) :
    val ||| (cur &&& NOT16 mask) = (val &&& mask) ||| (cur &&& NOT16 mask) := by
  rw [and_mask_absorb hv h]

lemma and_field_extract (v a b : Nat) :
    v &&& ((2 ^ a - 1) <<< b) = v / 2 ^ b % 2 ^ a * 2 ^ b := by
  apply Nat.eq_of_testBit_eq
  intro i
  rw [Nat.testBit_and, Nat.testBit_shiftLeft, Nat.testBit_two_pow_sub_one,
    ← Nat.shiftLeft_eq, Nat.testBit_shiftLeft, Nat.testBit_mod_two_pow,
    ← Nat.shiftRight_eq_div_pow, Nat.testBit_shiftRight]
  by_cases hb : b ≤ i
  · have hi : b + (i - b) = i := by omega
    rw [hi]
    cases v.testBit i <;> simp [hb, Bool.and_comm]
  · simp [ge_iff_le, hb]

lemma not16_lt (mask : Nat) (hm : mask < 65536) : NOT16 mask < 65536 := by
  have he : (65536 : Nat) = 2 ^ 16 := by norm_num
  rw [NOT16, he]
  exact Nat.xor_lt_two_pow (by norm_num) (he ▸ hm)

lemma update_reg_ok (m : I2CModel) (reg mask val : Nat)
    (hr : m.readErr reg = none) (hw : m.writeErr reg = none)
    (hm : mask < 65536) (hv : val < 65536) :
    rda5807_update_reg m reg mask val =
      (0,
       [BusOp.readOp reg,
        BusOp.writeOp reg (val ||| (m.regs reg % 65536 &&& NOT16 mask))],
       { m with regs := fun r =>
           if r = reg then val ||| (m.regs reg % 65536 &&& NOT16 mask) else m.regs r }) := by
  have hmerged_lt : val ||| (m.regs reg % 65536 &&& NOT16 mask) < 65536 := by
    have he : (65536 : Nat) = 2 ^ 16 := by norm_num
    rw [he]
    exact Nat.or_lt_two_pow (he ▸ hv) (Nat.and_lt_two_pow _ (he ▸ not16_lt mask hm))
  simp only [rda5807_update_reg, rda5807_i2c_read, rda5807_i2c_write, hr, hw]
  rw [if_pos (by exact Int.natCast_nonneg _)]
  simp only [Int.toNat_ofNat]
  rw [Nat.mod_eq_of_lt hv, Nat.mod_eq_of_lt hm, Nat.mod_mod_of_dvd _ (dvd_refl 65536),
    Nat.mod_eq_of_lt hmerged_lt]
  rfl

lemma update_reg_trace_ne_nil (m : I2CModel) (reg mask val : Nat) :
    (rda5807_update_reg m reg mask val).2.1 ≠ [] := by
  simp only [rda5807_update_reg, rda5807_i2c_read, rda5807_i2c_write]
  cases hr : m.readErr reg with
  | some e =>
      by_cases he : (e : Int) ≥ 0
      · rw [if_pos he]
        cases hw : m.writeErr reg <;> simp
      · rw [if_neg he]
        simp
  | none =>
      rw [if_pos (by exact Int.natCast_nonneg _)]
      cases hw : m.writeErr reg <;> simp

/-- C1, counterexample: rda5807_update_reg does not mask `val` before
merging.  With register CTRL, mask 0 and value 1 against a device whose
registers read 0, the update succeeds and writes back 1, while the
claimed merged value (value & mask) | (current & ~mask) is 0, and the
bits outside the mask (here: all bits) are changed by the call. -/
theorem rda5807_update_reg_unmasked_val_counterexample :
    (rda5807_update_reg modelZero RDA5807_REG_CTRL 0 1).1 = 0 ∧
    (rda5807_update_reg modelZero RDA5807_REG_CTRL 0 1).2.2.regs RDA5807_REG_CTRL = 1 ∧
    (1 &&& 0) ||| (modelZero.regs RDA5807_REG_CTRL % 65536 &&& NOT16 0) = 0 ∧
    (rda5807_update_reg modelZero RDA5807_REG_CTRL 0 1).2.2.regs RDA5807_REG_CTRL &&&
        NOT16 0 ≠ modelZero.regs RDA5807_REG_CTRL % 65536 &&& NOT16 0 := by
  decide

/-- C1, amended: for every register, mask and 16-bit value with no bits
outside the mask (which holds for every caller in this driver), a
successful update(register, mask, value) returns 0 and writes back
merged = (value & mask) | (current & ~mask), where current is the value
just read, so the bits of the register outside the mask equal the bits
that were present before the call. -/
theorem rda5807_update_reg_preserves_unmasked (m : I2CModel) (reg mask val : Nat)
    (hr : m.readErr reg = none) (hw : m.writeErr reg = none)
    (hm : mask < 65536) (hv : val < 65536)
    (hdisj : val &&& NOT16 mask = 0) :
    (rda5807_update_reg m reg mask val).1 = 0 ∧
    (rda5807_update_reg m reg mask val).2.2.regs reg =
      (val &&& mask) ||| (m.regs reg % 65536 &&& NOT16 mask) ∧
    (rda5807_update_reg m reg mask val).2.2.regs reg &&& NOT16 mask =
      m.regs reg % 65536 &&& NOT16 mask := by
  rw [update_reg_ok m reg mask val hr hw hm hv]
  refine ⟨rfl, ?_, ?_⟩
  · show (if reg = reg then val ||| (m.regs reg % 65536 &&& NOT16 mask) else m.regs reg) = _
    rw [if_pos rfl]
    exact merge_eq_spec_merge _ hv hdisj
  · show (if reg = reg then val ||| (m.regs reg % 65536 &&& NOT16 mask) else m.regs reg) &&&
        NOT16 mask = _
    rw [if_pos rfl]
    exact merge_outside_mask _ _ _ hdisj

/-- Witness for the amended C1 theorem: DMUTE-bit update against a
device whose registers read 0xAAAA. -/
theorem rda5807_update_reg_preserves_unmasked_witness :
    (rda5807_update_reg modelAAAA RDA5807_REG_CTRL RDA5807_MASK_CTRL_DMUTE
        RDA5807_MASK_CTRL_DMUTE).1 = 0 ∧
    (rda5807_update_reg modelAAAA RDA5807_REG_CTRL RDA5807_MASK_CTRL_DMUTE
        RDA5807_MASK_CTRL_DMUTE).2.2.regs RDA5807_REG_CTRL =
      (RDA5807_MASK_CTRL_DMUTE &&& RDA5807_MASK_CTRL_DMUTE) |||
        (modelAAAA.regs RDA5807_REG_CTRL % 65536 &&& NOT16 RDA5807_MASK_CTRL_DMUTE) ∧
    (rda5807_update_reg modelAAAA RDA5807_REG_CTRL RDA5807_MASK_CTRL_DMUTE
        RDA5807_MASK_CTRL_DMUTE).2.2.regs RDA5807_REG_CTRL &&&
        NOT16 RDA5807_MASK_CTRL_DMUTE =
      modelAAAA.regs RDA5807_REG_CTRL % 65536 &&& NOT16 RDA5807_MASK_CTRL_DMUTE :=
  rda5807_update_reg_preserves_unmasked modelAAAA RDA5807_REG_CTRL RDA5807_MASK_CTRL_DMUTE
    RDA5807_MASK_CTRL_DMUTE rfl rfl (by decide) (by decide) (by decide)

/-- C2: the frequency encoder computes the channel index as
(f - 76000 + 25) / 50 for every in-band frequency; the listed
frequencies map to the exact indices of that formula, and decoding each
index back as index * 50 + 76000 lands within 25 kHz of the input. -/
theorem rda5807_chan_index_roundtrip :
    (∀ f : Nat, RDA5807_FREQ_MIN_KHZ ≤ f →
      rda5807_chan_index f = (f - 76000 + 25) / 50) ∧
    rda5807_chan_index 76000 = 0 ∧ rda5807_chan_index 76001 = 0 ∧
    rda5807_chan_index 87500 = 230 ∧ rda5807_chan_index 98000 = 440 ∧
    rda5807_chan_index 107999 = 640 ∧ rda5807_chan_index 108000 = 640 ∧
    ((rda5807_chan_index 76000 * 50 + 76000 : Int) - 76000).natAbs ≤ 25 ∧
    ((rda5807_chan_index 76001 * 50 + 76000 : Int) - 76001).natAbs ≤ 25 ∧
    ((rda5807_chan_index 87500 * 50 + 76000 : Int) - 87500).natAbs ≤ 25 ∧
    ((rda5807_chan_index 98000 * 50 + 76000 : Int) - 98000).natAbs ≤ 25 ∧
    ((rda5807_chan_index 107999 * 50 + 76000 : Int) - 107999).natAbs ≤ 25 ∧
    ((rda5807_chan_index 108000 * 50 + 76000 : Int) - 108000).natAbs ≤ 25 := by
  refine ⟨fun f h => rfl, ?_⟩
  decide

/-- Witness instantiating the quantified part of the C2 theorem at
87500 kHz. -/
theorem rda5807_chan_index_roundtrip_witness :
    rda5807_chan_index 87500 = (87500 - 76000 + 25) / 50 :=
  rda5807_chan_index_roundtrip.1 87500 (by decide)

/-- C3: frequencies strictly below 76000 kHz or strictly above
108000 kHz are rejected with -ERANGE, the bus transaction trace is empty
and the device state is returned unchanged. -/
theorem rda5807_set_frequency_range_reject (m : I2CModel) (f : Nat)
    (h : f < RDA5807_FREQ_MIN_KHZ ∨ RDA5807_FREQ_MAX_KHZ < f) :
    rda5807_set_frequency m f = (-ERANGE, [], m) := by
  rcases h with h | h
  · simp only [rda5807_set_frequency]
    rw [if_pos h]
  · simp only [rda5807_set_frequency]
    rw [if_neg (by simp only [RDA5807_FREQ_MIN_KHZ, RDA5807_FREQ_MAX_KHZ] at h ⊢; omega),
      if_pos h]

/-- Witness for C3 at 200000 kHz against a concrete fault-free device. -/
theorem rda5807_set_frequency_range_reject_witness :
    rda5807_set_frequency modelZero 200000 = (-ERANGE, [], modelZero) :=
  rda5807_set_frequency_range_reject modelZero 200000 (Or.inr (by decide))

/-- C4: the compound mute control performs the enable update then the
mute update; the mute update is attempted (it issues at least one bus
transaction) even when the enable update failed, and the returned code
is the enable update's result when non-zero, otherwise the mute
update's result.  In particular a negative CTRL read error surfaces as
the compound result. -/
theorem rda5807_s_ctrl_mute_spec (m : I2CModel) (v : Int) :
    (rda5807_s_ctrl_mute m v).1 =
      (if (rda5807_set_enable m (if v = 0 then 1 else 0)).1 ≠ 0 then
        (rda5807_set_enable m (if v = 0 then 1 else 0)).1
      else (rda5807_set_mute (rda5807_set_enable m (if v = 0 then 1 else 0)).2.2 v).1) ∧
    (rda5807_s_ctrl_mute m v).2.1 =
      (rda5807_set_enable m (if v = 0 then 1 else 0)).2.1 ++
        (rda5807_set_mute (rda5807_set_enable m (if v = 0 then 1 else 0)).2.2 v).2.1 ∧
    (rda5807_set_mute (rda5807_set_enable m (if v = 0 then 1 else 0)).2.2 v).2.1 ≠ [] ∧
    (∀ e : Int, m.readErr RDA5807_REG_CTRL = some e → e < 0 →
      (rda5807_s_ctrl_mute m v).1 = e) := by
  refine ⟨rfl, rfl, update_reg_trace_ne_nil _ _ _ _, ?_⟩
  intro e he hneg
  have h1 : (rda5807_set_enable m (if v = 0 then 1 else 0)).1 = e := by
    simp only [rda5807_set_enable, rda5807_update_reg, rda5807_i2c_read, he]
    rw [if_neg (by omega)]
  have h0 : (rda5807_s_ctrl_mute m v).1 =
      (if (rda5807_set_enable m (if v = 0 then 1 else 0)).1 ≠ 0 then
        (rda5807_set_enable m (if v = 0 then 1 else 0)).1
      else (rda5807_set_mute (rda5807_set_enable m (if v = 0 then 1 else 0)).2.2 v).1) := rfl
  rw [h0, h1, if_pos (by omega)]

/-- Witness for C4: a concrete device whose CTRL read fails with -EIO_CODE,
mute request value 1. -/
theorem rda5807_s_ctrl_mute_spec_witness :
    (rda5807_s_ctrl_mute modelCtrlReadFail 1).1 = -EIO_CODE :=
  (rda5807_s_ctrl_mute_spec modelCtrlReadFail 1).2.2.2 (-EIO_CODE) rfl (by decide)

/-- C5: the mute encoder targets the DMUTE bit of the CTRL register, and
the value it passes has the DMUTE bit (bit 14) set iff unmuting
(muted = 0) and clear iff muting (muted ≠ 0). -/
theorem rda5807_set_mute_dmute (m : I2CModel) (muted : Int) :
    rda5807_set_mute m muted =
      rda5807_update_reg m RDA5807_REG_CTRL RDA5807_MASK_CTRL_DMUTE
        (rda5807_set_mute_val muted) ∧
    ((rda5807_set_mute_val muted).testBit 14 = true ↔ muted = 0) ∧
    ((rda5807_set_mute_val muted).testBit 14 = false ↔ muted ≠ 0) := by
  refine ⟨rfl, ?_, ?_⟩ <;>
    by_cases h : muted = 0 <;>
      simp [rda5807_set_mute_val, h, RDA5807_MASK_CTRL_DMUTE, BIT] <;>
        decide

lemma seekres_complete_iff (s : Nat) :
    (s &&& (RDA5807_MASK_SEEKRES_COMPLETE ||| RDA5807_MASK_SEEKRES_FAIL) =
      RDA5807_MASK_SEEKRES_COMPLETE) ↔ (s.testBit 14 = true ∧ s.testBit 13 = false) := by
  have e1 : RDA5807_MASK_SEEKRES_COMPLETE = 2 ^ 14 := by decide
  have e2 : RDA5807_MASK_SEEKRES_FAIL = 2 ^ 13 := by decide
  rw [e1, e2, Nat.and_or_distrib_left, Nat.and_two_pow, Nat.and_two_pow]
  cases h14 : s.testBit 14 <;> cases h13 : s.testBit 13 <;> simp

lemma seekres_stereo_iff (s : Nat) :
    (s &&& RDA5807_MASK_SEEKRES_STEREO ≠ 0) ↔ s.testBit 10 = true := by
  have e : RDA5807_MASK_SEEKRES_STEREO = 2 ^ 10 := by decide
  rw [e, Nat.and_two_pow]
  cases h : s.testBit 10 <;> simp

/-- C6: tri-state decode of SEEK_RESULT: known-stereo exactly when the
seek-complete bit (14) is set, the seek-fail bit (13) is clear and the
stereo bit (10) is set; known-mono when complete is set, fail is clear
and stereo is clear; and the ambiguous both-possible value in every
other case (complete clear, or fail set). -/
theorem rda5807_g_tuner_rxsubchans_spec (s : Nat) :
    (rda5807_g_tuner_rxsubchans s = V4L2_TUNER_SUB_STEREO ↔
      (s.testBit 14 = true ∧ s.testBit 13 = false ∧ s.testBit 10 = true)) ∧
    (rda5807_g_tuner_rxsubchans s = V4L2_TUNER_SUB_MONO ↔
      (s.testBit 14 = true ∧ s.testBit 13 = false ∧ s.testBit 10 = false)) ∧
    (rda5807_g_tuner_rxsubchans s = (V4L2_TUNER_SUB_MONO ||| V4L2_TUNER_SUB_STEREO) ↔
      (s.testBit 14 = false ∨ s.testBit 13 = true)) := by
  have hmain : rda5807_g_tuner_rxsubchans s =
      if s.testBit 14 = true ∧ s.testBit 13 = false then
        (if s.testBit 10 = true then V4L2_TUNER_SUB_STEREO else V4L2_TUNER_SUB_MONO)
      else V4L2_TUNER_SUB_MONO ||| V4L2_TUNER_SUB_STEREO := by
    unfold rda5807_g_tuner_rxsubchans
    by_cases hA : s.testBit 14 = true ∧ s.testBit 13 = false
    · rw [if_pos ((seekres_complete_iff s).mpr hA), if_pos hA]
      by_cases hB : s.testBit 10 = true
      · rw [if_pos ((seekres_stereo_iff s).mpr hB), if_pos hB]
      · rw [if_neg (fun hc => hB ((seekres_stereo_iff s).mp hc)), if_neg hB]
    · rw [if_neg (fun hc => hA ((seekres_complete_iff s).mp hc)), if_neg hA]
  rw [hmain]
  cases h14 : s.testBit 14 <;> cases h13 : s.testBit 13 <;> cases h10 : s.testBit 10 <;>
    simp [V4L2_TUNER_SUB_MONO, V4L2_TUNER_SUB_STEREO]

/-- C7: the reported signal level is the 7-bit RSSI field (bits 9..15 of
the SIGNAL register value) multiplied by exactly 2^9. -/
theorem rda5807_signal_spec (v : Nat) :
    rda5807_signal v = rda5807_rssi v * 2 ^ 9 ∧
    rda5807_rssi v = v / 2 ^ 9 % 2 ^ 7 ∧
    rda5807_rssi v < 2 ^ 7 := by
  have hmask : RDA5807_MASK_RSSI = (2 ^ 7 - 1) <<< 9 := by decide
  have hfield : rda5807_rssi v = v / 2 ^ 9 % 2 ^ 7 := by
    simp only [rda5807_rssi, RDA5807_SHIFT_RSSI, hmask]
    rw [and_field_extract, Nat.shiftRight_eq_div_pow,
      Nat.mul_div_cancel _ (by norm_num : 0 < 2 ^ 9)]
  refine ⟨?_, hfield, ?_⟩
  · simp only [rda5807_signal, Nat.shiftLeft_eq]
  · rw [hfield]
    exact Nat.mod_lt _ (by norm_num)

/-- C8: when probe's chip-ID read succeeds but the high byte of the
16-bit chip-ID value is not 0x58, probe fails with -ENODEV, the only bus
transaction is the chip-ID read, and control registration is never
reached, for either outcome of the allocation. -/
theorem rda5807_i2c_probe_chipid_gate (m : I2CModel) (alloc_fails : Bool)
    (hr : m.readErr RDA5807_REG_CHIPID = none)
    (hhi : m.regs RDA5807_REG_CHIPID % 65536 / 256 ≠ 0x58) :
    rda5807_i2c_probe m alloc_fails =
      (-ENODEV, [BusOp.readOp RDA5807_REG_CHIPID], false) := by
  have hlt : m.regs RDA5807_REG_CHIPID % 65536 < 65536 := by omega
  have hchip : m.regs RDA5807_REG_CHIPID % 65536 &&& 0xFF00 ≠ 0x5800 := by
    have h1 : (0xFF00 : Nat) = (2 ^ 8 - 1) <<< 8 := by decide
    rw [h1, and_field_extract]
    intro hc
    apply hhi
    norm_num at hc ⊢
    omega
  simp only [rda5807_i2c_probe, rda5807_i2c_read, hr]
  rw [if_neg (by exact Int.not_lt.mpr (Int.natCast_nonneg _))]
  simp only [Int.toNat_ofNat]
  rw [if_pos hchip]

/-- Witness for C8: concrete device with chip-ID 0x1234. -/
theorem rda5807_i2c_probe_chipid_gate_witness :
    rda5807_i2c_probe modelWrongChip false =
      (-ENODEV, [BusOp.readOp RDA5807_REG_CHIPID], false) :=
  rda5807_i2c_probe_chipid_gate modelWrongChip false rfl (by decide)

/-- C9: resume queries the framework's current mute value; when muted
(non-zero) it returns 0 with no bus transaction and the device state
unchanged; when unmuted it re-issues set_enable(1), which starts with a
bus transaction. -/
theorem rda5807_resume_spec (m : I2CModel) (mute_val : Int) :
    (mute_val ≠ 0 → rda5807_resume m mute_val = (0, [], m)) ∧
    (mute_val = 0 → rda5807_resume m mute_val = rda5807_set_enable m 1 ∧
      (rda5807_resume m mute_val).2.1 ≠ []) := by
  constructor
  · intro h
    simp [rda5807_resume, h]
  · intro h
    subst h
    have heq : rda5807_resume m 0 = rda5807_set_enable m 1 := by
      simp [rda5807_resume]
    refine ⟨heq, ?_⟩
    rw [heq]
    exact update_reg_trace_ne_nil _ _ _ _

/-- Witness for C9 at a concrete device: muted (1) and unmuted (0). -/
theorem rda5807_resume_spec_witness :
    rda5807_resume modelZero 1 = (0, [], modelZero) ∧
    (rda5807_resume modelZero 0 = rda5807_set_enable modelZero 1 ∧
      (rda5807_resume modelZero 0).2.1 ≠ []) :=
  ⟨(rda5807_resume_spec modelZero 1).1 (by decide),
   (rda5807_resume_spec modelZero 0).2 rfl⟩

/-- C10: for every in-band frequency the channel index is at most 640,
so it fits the 10-bit WRCHAN field: shifting it left by 6 sets no bit
outside the WRCHAN mask, and the whole value handed to the update engine
has no bit outside the accumulated mask. -/
theorem rda5807_set_frequency_val_in_mask (f : Nat)
    (hlo : RDA5807_FREQ_MIN_KHZ ≤ f) (hhi : f ≤ RDA5807_FREQ_MAX_KHZ) :
    rda5807_chan_index f ≤ 640 ∧
    (rda5807_chan_index f <<< RDA5807_SHIFT_CHAN_WRCHAN) &&&
      NOT16 RDA5807_MASK_CHAN_WRCHAN = 0 ∧
    rda5807_set_frequency_val f &&& NOT16 rda5807_set_frequency_mask = 0 := by
  have hidx : rda5807_chan_index f ≤ 640 := by
    simp only [RDA5807_FREQ_MIN_KHZ] at hlo
    simp only [RDA5807_FREQ_MAX_KHZ] at hhi
    simp only [rda5807_chan_index, RDA5807_FREQ_MIN_KHZ]
    omega
  refine ⟨hidx, ?_, ?_⟩
  · have h63 : NOT16 RDA5807_MASK_CHAN_WRCHAN = 2 ^ 6 - 1 := by decide
    rw [h63]
    simp only [RDA5807_SHIFT_CHAN_WRCHAN]
    rw [Nat.and_pow_two_sub_one_eq_mod, Nat.shiftLeft_eq, Nat.mul_mod_left]
  · have h32 : NOT16 rda5807_set_frequency_mask = 2 ^ 5 := by decide
    have hbit : (rda5807_set_frequency_val f).testBit 5 = false := by
      simp [rda5807_set_frequency_val, RDA5807_SHIFT_CHAN_BAND, RDA5807_SHIFT_CHAN_SPACE,
        RDA5807_SHIFT_CHAN_WRCHAN, RDA5807_MASK_CHAN_TUNE, BIT, Nat.testBit_or,
        Nat.testBit_shiftLeft]
      decide
    rw [h32, Nat.and_two_pow, hbit]
    simp

/-- Witness for C10 at 108000 kHz. -/
theorem rda5807_set_frequency_val_in_mask_witness :
    rda5807_chan_index 108000 ≤ 640 ∧
    (rda5807_chan_index 108000 <<< RDA5807_SHIFT_CHAN_WRCHAN) &&&
      NOT16 RDA5807_MASK_CHAN_WRCHAN = 0 ∧
    rda5807_set_frequency_val 108000 &&& NOT16 rda5807_set_frequency_mask = 0 :=
  rda5807_set_frequency_val_in_mask 108000 (by decide) (by decide)

end RDA5807
